import Mathlib

/-!
Verification development for the Chronicle Android raw-data preprocessing
engine (`src/preprocessors`).  The Python code is shallowly embedded:

* a dataframe row becomes an `Event` record;
* `pd.Timestamp` instants become `Int` (seconds for the interval
  reconstructor in `app_usage_preprocessor.py`, nanoseconds for the
  duplicate-timestamp resolver in `timestamp_preprocessor.py`); the
  comparisons the code performs on `total_seconds()` floats are exact on
  these integral inputs;
* missing values (`NaN`) become `Option`;
* a raised exception becomes `Except.error`.

Timezone conversion of the start/stop columns preserves instants
(`tz_convert` rewrites the printed zone only), so it is the identity on
this instant-level model and is omitted from the table-level functions.
-/

namespace Chronicle

/-- One dataframe row: app package name, interaction type (the string
values of the `InteractionType` enum in `config/constants.py`), the
`event_timestamp` instant, and the nullable `start_timestamp` /
`stop_timestamp` columns. -/
structure Event where
  app : String
  it : String
  ts : Int
  start : Option Int := none
  stop : Option Int := none
  deriving Repr, DecidableEq, Inhabited

/-- `12 * 3600`: the `long_duration_threshold_seconds` constant used by both
`process_valid_app_usage` and `process_filtered_app_usage`. -/
def long_duration_threshold_seconds : Int := 12 * 3600

/-- First index `j > i` whose row satisfies `p`: the head of
`df_copy.index[(df_copy.index > i) & mask].tolist()`. -/
def findIdxAfter (p : Event → Bool) (evs : List Event) (i : Nat) : Option Nat :=
  (((List.range evs.length).filter fun j => decide (i < j) && p (evs.getD j default))).head?

/-- Earliest subsequent same-app stop candidate (`same_app_indices[0]`):
first `j > i` with the same `app_package_name` and an interaction type in
the configured same-app stop-trigger set. -/
def sameAppStopCand (sameStop : List String) (evs : List Event) (i : Nat) : Option Nat :=
  findIdxAfter (fun e => e.app == (evs.getD i default).app && sameStop.contains e.it) evs i

/-- Earliest subsequent other-app stop candidate (`other_app_indices[0]`):
first `j > i` with a different `app_package_name` and an interaction type in
the configured other-app stop-trigger set. -/
def otherAppStopCand (otherStop : List String) (evs : List Event) (i : Nat) : Option Nat :=
  findIdxAfter (fun e => !(e.app == (evs.getD i default).app) && otherStop.contains e.it) evs i

/-- Earliest subsequent activity-stopped fallback (`activity_stopped_indices[0]`)
for the stop interaction type of the category (`Activity Stopped` in the Valid
category, `Filtered App Stopped` in the Filtered one). -/
def activityStoppedCand (stoppedType : String) (evs : List Event) (i : Nat) : Option Nat :=
  findIdxAfter (fun e => e.app == (evs.getD i default).app && e.it == stoppedType) evs i

/-- The `timestamp_to_use` tie-break chain shared verbatim by
`process_valid_app_usage` (lines 271-317) and `process_filtered_app_usage`
(lines 124-170) for the case where both the same-app and the other-app
candidate exist: compare the two deltas, check the winner against the
12-hour cutoff, otherwise fall back to the activity-stopped candidate if it
is within the cutoff. -/
def bothCandidatesChain (curTs sameTs otherTs : Int) (stoppedTs : Option Int) : Option Int :=
  let sd := sameTs - curTs
  let od := otherTs - curTs
  if sd < od then
    if sd < long_duration_threshold_seconds then some sameTs
    else
      match stoppedTs with
      | some a => if a - curTs < long_duration_threshold_seconds then some a else none
      | none => none
  else if od < sd then
    if od < long_duration_threshold_seconds then some otherTs
    else
      match stoppedTs with
      | some a => if a - curTs < long_duration_threshold_seconds then some a else none
      | none => none
  else if sd < long_duration_threshold_seconds then some sameTs
  else
    match stoppedTs with
    | some a => if a - curTs < long_duration_threshold_seconds then some a else none
    | none => none

/-- `timestamp_to_use` for one `Activity Resumed` row of
`process_valid_app_usage` (lines 249-319): when both same-app and other-app
candidates exist, run the tie-break chain; otherwise (lines 318-319) use the
activity-stopped fallback unconditionally. -/
def valid_timestamp_to_use (sameStop otherStop : List String) (evs : List Event) (i : Nat) :
    Option Int :=
  let cur := evs.getD i default
  let aIdx := activityStoppedCand "Activity Stopped" evs i
  let aTs := aIdx.map fun j => (evs.getD j default).ts
  match sameAppStopCand sameStop evs i, otherAppStopCand otherStop evs i with
  | some s, some o =>
      bothCandidatesChain cur.ts (evs.getD s default).ts (evs.getD o default).ts aTs
  | some _, none => aTs
  | none, some _ => aTs
  | none, none => aTs

/-- `timestamp_to_use` for one `Filtered App Resumed` row of
`process_filtered_app_usage` (lines 102-174): identical tie-break chain,
but the lone-fallback branch (lines 171-174) checks the 12-hour cutoff. -/
def filtered_timestamp_to_use (fSameStop fOtherStop : List String) (evs : List Event) (i : Nat) :
    Option Int :=
  let cur := evs.getD i default
  let aIdx := activityStoppedCand "Filtered App Stopped" evs i
  let aTs := aIdx.map fun j => (evs.getD j default).ts
  let fallback :=
    match aTs with
    | some a => if a - cur.ts < long_duration_threshold_seconds then some a else none
    | none => none
  match sameAppStopCand fSameStop evs i, otherAppStopCand fOtherStop evs i with
  | some s, some o =>
      bothCandidatesChain cur.ts (evs.getD s default).ts (evs.getD o default).ts aTs
  | some _, none => fallback
  | none, some _ => fallback
  | none, none => fallback

/-- Row-resolution pass of `process_valid_app_usage`: each
`Activity Resumed` row either receives `start`/`stop` timestamps, or — when
no terminator qualifies — is re-tagged `End of Usage Missing` (lines
331-335; note the valid branch does not write `start_timestamp`).  The
candidate masks are computed from the original table before the loop, so
each row's resolution depends only on the input list. -/
def resolveValidRow (sameStop otherStop : List String) (evs : List Event) (i : Nat) : Event :=
  if (evs.getD i default).it == "Activity Resumed" then
    match valid_timestamp_to_use sameStop otherStop evs i with
    | some t =>
        { evs.getD i default with start := some (evs.getD i default).ts, stop := some t }
    | none => { evs.getD i default with it := "End of Usage Missing" }
  else evs.getD i default

/-- The table after the resolution loop: one `resolveValidRow` per position. -/
def resolveValidRows (sameStop otherStop : List String) (evs : List Event) : List Event :=
  (List.range evs.length).map (resolveValidRow sameStop otherStop evs)

/-- The two ways the usage-processing stages raise: `pd.errors.EmptyDataError`
(`app_usage_preprocessor.py` line 238) and the `ValueError` of
`check_for_disordered_timestamps` (`timestamp_preprocessor.py` lines 243-253),
which carries the count of rows whose start timestamp exceeds their stop
timestamp. -/
inductive UsageError where
  | emptyUsageData (msg : String)
  | disorderedTimestamps (count : Nat)
  deriving Repr, DecidableEq

/-- The row count inspected by `check_for_disordered_timestamps`
(`timestamp_preprocessor.py` line 243): rows with `start_timestamp >
stop_timestamp`.  A pandas `>` comparison is `False` when either side is
`NaN`, so only rows with both endpoints present can count. -/
def disordered_count (tbl : List Event) : Nat :=
  tbl.countP fun e =>
    match e.start, e.stop with
    | some s, some t => decide (t < s)
    | _, _ => false

/-- The post-cleanup table of `process_valid_app_usage` (lines 337-346):
resolve every resumed row, drop `Activity Paused` rows and unresolved
`Activity Resumed` rows, and rename `Activity Resumed` to `App Usage`.
(The timezone re-conversion of line 348 preserves instants and the duration
columns of lines 352-361 are not modelled.) -/
def valid_usage_table (sameStop otherStop : List String) (evs : List Event) : List Event :=
  ((resolveValidRows sameStop otherStop evs).filter fun e =>
    !(e.it == "Activity Paused") &&
      !(e.it == "Activity Resumed" && (e.start.isNone || e.stop.isNone))).map
    fun e => if e.it == "Activity Resumed" then { e with it := "App Usage" } else e

/-- `process_valid_app_usage` (lines 217-366): raise `EmptyDataError` when no
`Activity Resumed`/`Activity Paused` rows exist; otherwise build the cleaned
table and run `check_for_disordered_timestamps` on it (line 350), raising
`DisorderedTimestamps(count)` when any row has start after stop. -/
def process_valid_app_usage (sameStop otherStop : List String) (evs : List Event) :
    Except UsageError (List Event) :=
  if !(evs.any fun e => e.it == "Activity Resumed" || e.it == "Activity Paused") then
    .error (.emptyUsageData "No valid app usage data during the study period")
  else if 0 < disordered_count (valid_usage_table sameStop otherStop evs) then
    .error (.disorderedTimestamps (disordered_count (valid_usage_table sameStop otherStop evs)))
  else .ok (valid_usage_table sameStop otherStop evs)

/-- Row-resolution pass of `process_filtered_app_usage`: as in the valid
category, except that the missing-terminator branch (lines 186-191) also
writes `start_timestamp` before re-tagging. -/
def resolveFilteredRow (fSameStop fOtherStop : List String) (evs : List Event) (i : Nat) :
    Event :=
  if (evs.getD i default).it == "Filtered App Resumed" then
    match filtered_timestamp_to_use fSameStop fOtherStop evs i with
    | some t =>
        { evs.getD i default with start := some (evs.getD i default).ts, stop := some t }
    | none =>
        { evs.getD i default with
            it := "End of Usage Missing", start := some (evs.getD i default).ts }
  else evs.getD i default

/-- The table after the filtered resolution loop. -/
def resolveFilteredRows (fSameStop fOtherStop : List String) (evs : List Event) : List Event :=
  (List.range evs.length).map (resolveFilteredRow fSameStop fOtherStop evs)

/-- The post-cleanup table of `process_filtered_app_usage` (lines 193-205):
resolve every filtered resumed row, drop `Filtered App Paused` rows and
unresolved `Filtered App Resumed` rows, and rename `Filtered App Resumed` to
`Filtered App Usage`. -/
def filtered_usage_table (fSameStop fOtherStop : List String) (evs : List Event) : List Event :=
  ((resolveFilteredRows fSameStop fOtherStop evs).filter fun e =>
    !(e.it == "Filtered App Paused") &&
      !(e.it == "Filtered App Resumed" && (e.start.isNone || e.stop.isNone))).map
    fun e => if e.it == "Filtered App Resumed" then { e with it := "Filtered App Usage" } else e

/-- `process_filtered_app_usage` (lines 74-215): return the table unchanged
when no `Filtered App Resumed`/`Filtered App Paused` rows exist (lines
88-91, skipping every later step including the check); otherwise build the
cleaned table and run `check_for_disordered_timestamps` on it (line 211),
raising `DisorderedTimestamps(count)` when any row has start after stop. -/
def process_filtered_app_usage (fSameStop fOtherStop : List String) (evs : List Event) :
    Except UsageError (List Event) :=
  if !(evs.any fun e => e.it == "Filtered App Resumed" || e.it == "Filtered App Paused") then
    .ok evs
  else if 0 < disordered_count (filtered_usage_table fSameStop fOtherStop evs) then
    .error
      (.disorderedTimestamps (disordered_count (filtered_usage_table fSameStop fOtherStop evs)))
  else .ok (filtered_usage_table fSameStop fOtherStop evs)

end Chronicle

namespace Chronicle

/-- Membership of the `getD`-indexed element for an in-range index. -/
theorem getD_mem_of_lt {α : Type} [Inhabited α] :
    ∀ (l : List α) (i : Nat), i < l.length → l.getD i default ∈ l
  | a :: t, 0, _ => List.mem_cons_self a t
  | a :: t, i + 1, h =>
      List.mem_cons_of_mem a (getD_mem_of_lt t i (by simpa using Nat.lt_of_succ_lt_succ h))

/-- When the same-app delta is the smaller one and under the cutoff, the
shared tie-break chain returns the same-app timestamp. -/
theorem bothCandidatesChain_same_wins {c s o : Int} (a : Option Int)
    (h1 : s - c < o - c) (h2 : s - c < long_duration_threshold_seconds) :
    bothCandidatesChain c s o a = some s := by
  simp only [bothCandidatesChain]
  rw [if_pos h1, if_pos h2]

/-- When the other-app delta is the smaller one and under the cutoff, the
shared tie-break chain returns the other-app timestamp. -/
theorem bothCandidatesChain_other_wins {c s o : Int} (a : Option Int)
    (h1 : o - c < s - c) (h2 : o - c < long_duration_threshold_seconds) :
    bothCandidatesChain c s o a = some o := by
  simp only [bothCandidatesChain]
  rw [if_neg (by omega), if_pos h1, if_pos h2]

/-- C1: for a start (resume) event with both a same-app and an other-app
stop candidate, the candidate with the smaller delta from the start event
wins as primary candidate and, provided its delta is under the 12-hour
cutoff, becomes the terminator — in both the Valid and the Filtered usage
categories. -/
theorem tie_break_smaller_delta_wins_under_cutoff :
    (∀ (sameStop otherStop : List String) (evs : List Event) (i s o : Nat),
      sameAppStopCand sameStop evs i = some s →
      otherAppStopCand otherStop evs i = some o →
      (((evs.getD s default).ts - (evs.getD i default).ts <
          (evs.getD o default).ts - (evs.getD i default).ts →
        (evs.getD s default).ts - (evs.getD i default).ts < long_duration_threshold_seconds →
        valid_timestamp_to_use sameStop otherStop evs i = some (evs.getD s default).ts) ∧
       ((evs.getD o default).ts - (evs.getD i default).ts <
          (evs.getD s default).ts - (evs.getD i default).ts →
        (evs.getD o default).ts - (evs.getD i default).ts < long_duration_threshold_seconds →
        valid_timestamp_to_use sameStop otherStop evs i = some (evs.getD o default).ts))) ∧
    (∀ (fSameStop fOtherStop : List String) (evs : List Event) (i s o : Nat),
      sameAppStopCand fSameStop evs i = some s →
      otherAppStopCand fOtherStop evs i = some o →
      (((evs.getD s default).ts - (evs.getD i default).ts <
          (evs.getD o default).ts - (evs.getD i default).ts →
        (evs.getD s default).ts - (evs.getD i default).ts < long_duration_threshold_seconds →
        filtered_timestamp_to_use fSameStop fOtherStop evs i = some (evs.getD s default).ts) ∧
       ((evs.getD o default).ts - (evs.getD i default).ts <
          (evs.getD s default).ts - (evs.getD i default).ts →
        (evs.getD o default).ts - (evs.getD i default).ts < long_duration_threshold_seconds →
        filtered_timestamp_to_use fSameStop fOtherStop evs i = some (evs.getD o default).ts))) := by
  constructor
  · intro sameStop otherStop evs i s o hs ho
    constructor
    · intro h1 h2
      simp only [valid_timestamp_to_use, hs, ho]
      exact bothCandidatesChain_same_wins _ h1 h2
    · intro h1 h2
      simp only [valid_timestamp_to_use, hs, ho]
      exact bothCandidatesChain_other_wins _ h1 h2
  · intro fSameStop fOtherStop evs i s o hs ho
    constructor
    · intro h1 h2
      simp only [filtered_timestamp_to_use, hs, ho]
      exact bothCandidatesChain_same_wins _ h1 h2
    · intro h1 h2
      simp only [filtered_timestamp_to_use, hs, ho]
      exact bothCandidatesChain_other_wins _ h1 h2

/-- C1 witness: a resume at `0` with a same-app stop at `+300 s` and an
other-app stop at `+180 s` reconstructs the stop `180`, in both categories. -/
theorem tie_break_smaller_delta_wins_under_cutoff_witness :
    valid_timestamp_to_use ["Activity Paused"] ["Activity Resumed"]
      [⟨"a", "Activity Resumed", 0, none, none⟩, ⟨"b", "Activity Resumed", 180, none, none⟩,
       ⟨"a", "Activity Paused", 300, none, none⟩] 0 = some 180 ∧
    filtered_timestamp_to_use ["Filtered App Paused"] ["Activity Resumed"]
      [⟨"a", "Filtered App Resumed", 0, none, none⟩, ⟨"b", "Activity Resumed", 180, none, none⟩,
       ⟨"a", "Filtered App Paused", 300, none, none⟩] 0 = some 180 :=
  ⟨(tie_break_smaller_delta_wins_under_cutoff.1 ["Activity Paused"] ["Activity Resumed"]
      [⟨"a", "Activity Resumed", 0, none, none⟩, ⟨"b", "Activity Resumed", 180, none, none⟩,
       ⟨"a", "Activity Paused", 300, none, none⟩] 0 2 1 (by decide) (by decide)).2
    (by decide) (by decide),
   (tie_break_smaller_delta_wins_under_cutoff.2 ["Filtered App Paused"] ["Activity Resumed"]
      [⟨"a", "Filtered App Resumed", 0, none, none⟩, ⟨"b", "Activity Resumed", 180, none, none⟩,
       ⟨"a", "Filtered App Paused", 300, none, none⟩] 0 2 1 (by decide) (by decide)).2
    (by decide) (by decide)⟩

end Chronicle

namespace Chronicle

/-- C2 counterexample: a resume at `0` with a lone same-app stop candidate at
`+300 s` (well under the 12-hour cutoff), no other-app candidate and no
activity-stopped fallback: the reconstructed terminator is `none`, not the
lone candidate's timestamp `300` required by the claim. -/
theorem lone_same_app_candidate_ignored_cex :
    sameAppStopCand ["Activity Paused"]
      [⟨"a", "Activity Resumed", 0, none, none⟩, ⟨"a", "Activity Paused", 300, none, none⟩] 0 =
      some 1 ∧
    otherAppStopCand ["Device Shutdown"]
      [⟨"a", "Activity Resumed", 0, none, none⟩, ⟨"a", "Activity Paused", 300, none, none⟩] 0 =
      none ∧
    (300 : Int) - 0 < long_duration_threshold_seconds ∧
    valid_timestamp_to_use ["Activity Paused"] ["Device Shutdown"]
      [⟨"a", "Activity Resumed", 0, none, none⟩, ⟨"a", "Activity Paused", 300, none, none⟩] 0 =
      none := by
  refine ⟨by decide, by decide, by decide, by decide⟩

/-- C2 amended: when exactly one of the same-app / other-app stop candidates
exists, the reconstructor ignores that candidate entirely and consults only
the activity-stopped fallback — unconditionally in the Valid category, and
subject to the 12-hour cutoff in the Filtered category. -/
theorem lone_candidate_ignored_fallback_only :
    (∀ (sameStop otherStop : List String) (evs : List Event) (i : Nat),
      ((sameAppStopCand sameStop evs i).isSome ∧ otherAppStopCand otherStop evs i = none) ∨
        (sameAppStopCand sameStop evs i = none ∧ (otherAppStopCand otherStop evs i).isSome) →
      valid_timestamp_to_use sameStop otherStop evs i =
        (activityStoppedCand "Activity Stopped" evs i).map fun j => (evs.getD j default).ts) ∧
    (∀ (fSameStop fOtherStop : List String) (evs : List Event) (i : Nat),
      ((sameAppStopCand fSameStop evs i).isSome ∧ otherAppStopCand fOtherStop evs i = none) ∨
        (sameAppStopCand fSameStop evs i = none ∧ (otherAppStopCand fOtherStop evs i).isSome) →
      filtered_timestamp_to_use fSameStop fOtherStop evs i =
        ((activityStoppedCand "Filtered App Stopped" evs i).map
            fun j => (evs.getD j default).ts).bind
          fun a =>
            if a - (evs.getD i default).ts < long_duration_threshold_seconds then some a
            else none) := by
  constructor
  · intro sameStop otherStop evs i h
    rcases h with ⟨hs, ho⟩ | ⟨hs, ho⟩
    · rcases Option.isSome_iff_exists.mp hs with ⟨s, hs⟩
      simp only [valid_timestamp_to_use, hs, ho]
    · rcases Option.isSome_iff_exists.mp ho with ⟨o, ho⟩
      simp only [valid_timestamp_to_use, hs, ho]
  · intro fSameStop fOtherStop evs i h
    rcases h with ⟨hs, ho⟩ | ⟨hs, ho⟩
    · rcases Option.isSome_iff_exists.mp hs with ⟨s, hs⟩
      simp only [filtered_timestamp_to_use, hs, ho]
      cases (activityStoppedCand "Filtered App Stopped" evs i) <;> rfl
    · rcases Option.isSome_iff_exists.mp ho with ⟨o, ho⟩
      simp only [filtered_timestamp_to_use, hs, ho]
      cases (activityStoppedCand "Filtered App Stopped" evs i) <;> rfl

/-- C2 amended witness: at the counterexample table the lone same-app
candidate exists and the valid terminator equals the (absent)
activity-stopped fallback, i.e. `none`. -/
theorem lone_candidate_ignored_fallback_only_witness :
    valid_timestamp_to_use ["Activity Paused"] ["Device Shutdown"]
      [⟨"a", "Activity Resumed", 0, none, none⟩, ⟨"a", "Activity Paused", 300, none, none⟩] 0 =
      (activityStoppedCand "Activity Stopped"
        [⟨"a", "Activity Resumed", 0, none, none⟩, ⟨"a", "Activity Paused", 300, none, none⟩]
        0).map
        fun j =>
          ((([⟨"a", "Activity Resumed", 0, none, none⟩,
              ⟨"a", "Activity Paused", 300, none, none⟩] : List Event)).getD j default).ts :=
  lone_candidate_ignored_fallback_only.1 ["Activity Paused"] ["Device Shutdown"]
    [⟨"a", "Activity Resumed", 0, none, none⟩, ⟨"a", "Activity Paused", 300, none, none⟩] 0
    (Or.inl ⟨by decide, by decide⟩)

/-- C3 counterexample: a resume at `0` with no same-app and no other-app
candidate and an activity-stopped fallback at `+13 h` (beyond the 12-hour
cutoff): the Valid category still uses it as the terminator, while the claim
requires no terminator. -/
theorem valid_fallback_ignores_cutoff_cex :
    sameAppStopCand ["Activity Paused"]
      [⟨"a", "Activity Resumed", 0, none, none⟩, ⟨"a", "Activity Stopped", 46800, none, none⟩] 0 =
      none ∧
    otherAppStopCand ["Device Shutdown"]
      [⟨"a", "Activity Resumed", 0, none, none⟩, ⟨"a", "Activity Stopped", 46800, none, none⟩] 0 =
      none ∧
    ¬((46800 : Int) - 0 < long_duration_threshold_seconds) ∧
    valid_timestamp_to_use ["Activity Paused"] ["Device Shutdown"]
      [⟨"a", "Activity Resumed", 0, none, none⟩, ⟨"a", "Activity Stopped", 46800, none, none⟩] 0 =
      some 46800 := by
  refine ⟨by decide, by decide, by decide, by decide⟩

/-- C3 amended: with neither a same-app nor an other-app candidate, the
Filtered category uses the activity-stopped fallback only when its delta is
within the 12-hour cutoff, but the Valid category uses the fallback
unconditionally, even beyond the cutoff. -/
theorem no_candidates_fallback_cutoff_split :
    (∀ (sameStop otherStop : List String) (evs : List Event) (i : Nat),
      sameAppStopCand sameStop evs i = none →
      otherAppStopCand otherStop evs i = none →
      valid_timestamp_to_use sameStop otherStop evs i =
        (activityStoppedCand "Activity Stopped" evs i).map fun j => (evs.getD j default).ts) ∧
    (∀ (fSameStop fOtherStop : List String) (evs : List Event) (i : Nat),
      sameAppStopCand fSameStop evs i = none →
      otherAppStopCand fOtherStop evs i = none →
      filtered_timestamp_to_use fSameStop fOtherStop evs i =
        ((activityStoppedCand "Filtered App Stopped" evs i).map
            fun j => (evs.getD j default).ts).bind
          fun a =>
            if a - (evs.getD i default).ts < long_duration_threshold_seconds then some a
            else none) := by
  constructor
  · intro sameStop otherStop evs i hs ho
    simp only [valid_timestamp_to_use, hs, ho]
  · intro fSameStop fOtherStop evs i hs ho
    simp only [filtered_timestamp_to_use, hs, ho]
    cases (activityStoppedCand "Filtered App Stopped" evs i) <;> rfl

/-- C3 amended witness: at the counterexample table (fallback at `+13 h`),
the Valid terminator is the out-of-cutoff fallback timestamp itself. -/
theorem no_candidates_fallback_cutoff_split_witness :
    valid_timestamp_to_use ["Activity Paused"] ["Device Shutdown"]
      [⟨"a", "Activity Resumed", 0, none, none⟩, ⟨"a", "Activity Stopped", 46800, none, none⟩] 0 =
      (activityStoppedCand "Activity Stopped"
        [⟨"a", "Activity Resumed", 0, none, none⟩, ⟨"a", "Activity Stopped", 46800, none, none⟩]
        0).map
        fun j =>
          ((([⟨"a", "Activity Resumed", 0, none, none⟩,
              ⟨"a", "Activity Stopped", 46800, none, none⟩] : List Event)).getD j default).ts :=
  no_candidates_fallback_cutoff_split.1 ["Activity Paused"] ["Device Shutdown"]
    [⟨"a", "Activity Resumed", 0, none, none⟩, ⟨"a", "Activity Stopped", 46800, none, none⟩] 0
    (by decide) (by decide)

end Chronicle

namespace Chronicle

/-- C4 counterexample: a lone resume with no qualifying terminator.  The
Valid category re-tags the row `End of Usage Missing` but leaves
`start_timestamp` unset (`none`), whereas the claim requires it to be set to
the start event's timestamp `0`. -/
theorem valid_missing_terminator_start_unset_cex :
    (process_valid_app_usage ["Activity Paused"] ["Device Shutdown"]
        [⟨"a", "Activity Resumed", 0, none, none⟩]).map
        (fun l => l.map fun e => (e.it, e.start, e.stop)) =
      .ok [("End of Usage Missing", (none : Option Int), (none : Option Int))] ∧
    (none : Option Int) ≠ some 0 := ⟨rfl, by decide⟩

/-- C4 amended: for a start event with no qualifying terminator, the row is
re-tagged `End of Usage Missing`, keeps a null stop timestamp, and survives
the post-resolution cleanup into the cleaned table — and hence into the
output table whenever the post-resolution disordered-timestamps check passes
and one is produced (the check can still abort the whole file).  Its start
timestamp is written only in the Filtered category, while the Valid category
leaves the row's start timestamp unchanged (null for raw input). -/
theorem missing_terminator_retag_survives :
    (∀ (sameStop otherStop : List String) (evs : List Event) (i : Nat),
      i < evs.length →
      (evs.getD i default).it = "Activity Resumed" →
      valid_timestamp_to_use sameStop otherStop evs i = none →
      (evs.getD i default).stop = none →
      ({ evs.getD i default with it := "End of Usage Missing" } ∈
          valid_usage_table sameStop otherStop evs) ∧
        (∀ out, process_valid_app_usage sameStop otherStop evs = .ok out →
          { evs.getD i default with it := "End of Usage Missing" } ∈ out) ∧
        ({ evs.getD i default with it := "End of Usage Missing" } : Event).stop = none) ∧
    (∀ (fSameStop fOtherStop : List String) (evs : List Event) (i : Nat),
      i < evs.length →
      (evs.getD i default).it = "Filtered App Resumed" →
      filtered_timestamp_to_use fSameStop fOtherStop evs i = none →
      (evs.getD i default).stop = none →
      ({ evs.getD i default with
          it := "End of Usage Missing", start := some (evs.getD i default).ts } ∈
          filtered_usage_table fSameStop fOtherStop evs) ∧
        (∀ out, process_filtered_app_usage fSameStop fOtherStop evs = .ok out →
          { evs.getD i default with
            it := "End of Usage Missing", start := some (evs.getD i default).ts } ∈ out) ∧
        ({ evs.getD i default with
            it := "End of Usage Missing", start := some (evs.getD i default).ts } : Event).stop =
          none) := by
  constructor
  · intro sameStop otherStop evs i h1 h2 h3 h4
    have hmem : evs.getD i default ∈ evs := getD_mem_of_lt evs i h1
    have hany : (evs.any fun x => x.it == "Activity Resumed" || x.it == "Activity Paused") =
        true := by
      refine List.any_eq_true.mpr ⟨evs.getD i default, hmem, ?_⟩
      rw [h2]; rfl
    have hres : ({ evs.getD i default with it := "End of Usage Missing" } : Event) ∈
        resolveValidRows sameStop otherStop evs := by
      refine List.mem_map.mpr ⟨i, List.mem_range.mpr h1, ?_⟩
      unfold resolveValidRow
      simp only [h2, h3, beq_self_eq_true, if_true]
    have hclean : ({ evs.getD i default with it := "End of Usage Missing" } : Event) ∈
        (resolveValidRows sameStop otherStop evs).filter fun e =>
          !(e.it == "Activity Paused") &&
            !(e.it == "Activity Resumed" && (e.start.isNone || e.stop.isNone)) := by
      refine List.mem_filter.mpr ⟨hres, ?_⟩
      simp
    have htbl : ({ evs.getD i default with it := "End of Usage Missing" } : Event) ∈
        valid_usage_table sameStop otherStop evs := by
      unfold valid_usage_table
      refine List.mem_map.mpr ⟨{ evs.getD i default with it := "End of Usage Missing" },
        hclean, ?_⟩
      simp
    refine ⟨htbl, ?_, by simpa using h4⟩
    intro out hout
    unfold process_valid_app_usage at hout
    simp only [hany, Bool.not_true, Bool.false_eq_true, if_false] at hout
    split at hout
    · exact Except.noConfusion hout
    · exact Except.ok.inj hout ▸ htbl
  · intro fSameStop fOtherStop evs i h1 h2 h3 h4
    have hmem : evs.getD i default ∈ evs := getD_mem_of_lt evs i h1
    have hany : (evs.any fun x =>
        x.it == "Filtered App Resumed" || x.it == "Filtered App Paused") = true := by
      refine List.any_eq_true.mpr ⟨evs.getD i default, hmem, ?_⟩
      rw [h2]; rfl
    have hres : ({ evs.getD i default with
        it := "End of Usage Missing", start := some (evs.getD i default).ts } : Event) ∈
        resolveFilteredRows fSameStop fOtherStop evs := by
      refine List.mem_map.mpr ⟨i, List.mem_range.mpr h1, ?_⟩
      unfold resolveFilteredRow
      simp only [h2, h3, beq_self_eq_true, if_true]
    have hclean : ({ evs.getD i default with
        it := "End of Usage Missing", start := some (evs.getD i default).ts } : Event) ∈
        (resolveFilteredRows fSameStop fOtherStop evs).filter fun e =>
          !(e.it == "Filtered App Paused") &&
            !(e.it == "Filtered App Resumed" && (e.start.isNone || e.stop.isNone)) := by
      refine List.mem_filter.mpr ⟨hres, ?_⟩
      simp
    have htbl : ({ evs.getD i default with
        it := "End of Usage Missing", start := some (evs.getD i default).ts } : Event) ∈
        filtered_usage_table fSameStop fOtherStop evs := by
      unfold filtered_usage_table
      refine List.mem_map.mpr ⟨{ evs.getD i default with
        it := "End of Usage Missing", start := some (evs.getD i default).ts }, hclean, ?_⟩
      simp
    refine ⟨htbl, ?_, by simpa using h4⟩
    intro out hout
    unfold process_filtered_app_usage at hout
    simp only [hany, Bool.not_true, Bool.false_eq_true, if_false] at hout
    split at hout
    · exact Except.noConfusion hout
    · exact Except.ok.inj hout ▸ htbl

/-- C4 amended witness: the lone-resume tables in both categories produce the
re-tagged `End of Usage Missing` row in the output. -/
theorem missing_terminator_retag_survives_witness :
    (({ ([⟨"a", "Activity Resumed", 0, none, none⟩] : List Event).getD 0 default with
        it := "End of Usage Missing" } ∈
        valid_usage_table ["Activity Paused"] ["Device Shutdown"]
          [⟨"a", "Activity Resumed", 0, none, none⟩]) ∧
      (∀ out, process_valid_app_usage ["Activity Paused"] ["Device Shutdown"]
          [⟨"a", "Activity Resumed", 0, none, none⟩] = .ok out →
        { ([⟨"a", "Activity Resumed", 0, none, none⟩] : List Event).getD 0 default with
          it := "End of Usage Missing" } ∈ out) ∧
      ({ ([⟨"a", "Activity Resumed", 0, none, none⟩] : List Event).getD 0 default with
          it := "End of Usage Missing" } : Event).stop = none) ∧
    (({ ([⟨"a", "Filtered App Resumed", 0, none, none⟩] : List Event).getD 0 default with
        it := "End of Usage Missing",
        start := some (([⟨"a", "Filtered App Resumed", 0, none, none⟩] : List Event).getD 0
          default).ts } ∈
        filtered_usage_table ["Filtered App Paused"] ["Device Shutdown"]
          [⟨"a", "Filtered App Resumed", 0, none, none⟩]) ∧
      (∀ out, process_filtered_app_usage ["Filtered App Paused"] ["Device Shutdown"]
          [⟨"a", "Filtered App Resumed", 0, none, none⟩] = .ok out →
        { ([⟨"a", "Filtered App Resumed", 0, none, none⟩] : List Event).getD 0 default with
          it := "End of Usage Missing",
          start := some (([⟨"a", "Filtered App Resumed", 0, none, none⟩] : List Event).getD 0
            default).ts } ∈ out) ∧
      ({ ([⟨"a", "Filtered App Resumed", 0, none, none⟩] : List Event).getD 0 default with
          it := "End of Usage Missing",
          start := some (([⟨"a", "Filtered App Resumed", 0, none, none⟩] : List Event).getD 0
            default).ts } : Event).stop = none) :=
  ⟨missing_terminator_retag_survives.1 ["Activity Paused"] ["Device Shutdown"]
      [⟨"a", "Activity Resumed", 0, none, none⟩] 0 (by decide) (by decide) (by decide)
      (by decide),
   missing_terminator_retag_survives.2 ["Filtered App Paused"] ["Device Shutdown"]
      [⟨"a", "Filtered App Resumed", 0, none, none⟩] 0 (by decide) (by decide) (by decide)
      (by decide)⟩

end Chronicle

namespace Chronicle

/-- The string values of the `InteractionType` enum in `config/constants.py`;
`InteractionType(s)` succeeds exactly when `s` is in this list. -/
def interactionTypeValues : List String :=
  ["Activity Resumed", "Activity Paused", "App Usage", "App Launch", "End of Day",
   "Continue Previous Day", "Configuration Change", "System Interaction", "User Interaction",
   "Shortcut Invocation", "Chooser Action", "Notification Seen", "Notification Received",
   "Notification Removed", "Standby Bucket Changed", "Notification Interruption",
   "Slice Pinned Priv", "Slice Pinned App", "Screen Interactive", "Screen Non-Interactive",
   "Device Screen Off", "Keyguard Shown", "Keyguard Hidden",
   "Screen Interactive/Keyguard Shown", "Screen Non-Interactive/Keyguard Hidden",
   "Foreground Service Start", "Foreground Service Stop", "Continuing Foreground Service",
   "Rollover Foreground Service", "Activity Stopped", "Activity Destroyed", "Flush to Disk",
   "Device Shutdown", "Device Startup", "User Unlocked", "User Stopped", "Locus ID Set",
   "App Component Used", "Filtered App Resumed", "Filtered App Paused", "Filtered App Stopped",
   "Filtered App Destroyed", "Filtered App Usage", "End of Usage Missing",
   "Non-Target Child App Usage"]

/-- The string normalisation done by `get_priority_for_index`
(`timestamp_preprocessor.py` lines 195-197). -/
def normalizeInteractionString (s : String) : String :=
  if s = "Screen Non-interactive" then "Screen Non-Interactive" else s

/-- `get_event_priority` (`timestamp_preprocessor.py` lines 167-173):
`Activity Resumed` gets 0, configured stop-usage types get 2, everything
else 1.  `stopUsageTypes` is the union of the configured same-app and
other-app stop-trigger sets (lines 162-165). -/
def get_event_priority (stopUsageTypes : List String) (s : String) : Nat :=
  if s = "Activity Resumed" then 0 else if stopUsageTypes.contains s then 2 else 1

/-- `get_priority_for_index` (lines 194-205): normalise the interaction-type
string, map it through the enum (priority 3 on `ValueError`, i.e. when the
string is not an `InteractionType` value), else `get_event_priority`. -/
def get_priority_for_index (stopUsageTypes : List String) (evs : List Event) (idx : Nat) : Nat :=
  let s := normalizeInteractionString (evs.getD idx default).it
  if interactionTypeValues.contains s then get_event_priority stopUsageTypes s else 3

/-- The duplicate group of row `i`: all row positions sharing its
`event_timestamp` (the `groupby(timestamp_column)` of the
`duplicated(keep=False)` rows; a singleton group means row `i` is not
perturbed at all).  Timestamps are nanosecond instants here. -/
def dupGroup (evs : List Event) (i : Nat) : List Nat :=
  (List.range evs.length).filter fun j => (evs.getD j default).ts == (evs.getD i default).ts

/-- Strict lexicographic order on (priority, original position).  Python's
`sorted(group, key=get_priority_for_index)` is stable, so row `j` precedes
row `i` in the sorted group exactly when `lexBefore j i`. -/
def lexBefore (stopUsageTypes : List String) (evs : List Event) (j i : Nat) : Bool :=
  get_priority_for_index stopUsageTypes evs j < get_priority_for_index stopUsageTypes evs i ||
    (get_priority_for_index stopUsageTypes evs j == get_priority_for_index stopUsageTypes evs i &&
      j < i)

/-- The rank (`enumerate` index) of row `i` in its stably-sorted duplicate
group: the number of group members that precede it. -/
def dupRank (stopUsageTypes : List String) (evs : List Event) (i : Nat) : Nat :=
  (dupGroup evs i).countP fun j => lexBefore stopUsageTypes evs j i

/-- The instant of row `i` after `unalign_duplicate_timestamps`
(`timestamp_preprocessor.py` lines 141-223): members of a duplicate group of
size at least 2 get `original - (rank + 1)` nanoseconds; all other rows keep
their instant.  (The final `sort_values` reorders rows but does not change
instants.) -/
def unaligned_instant (stopUsageTypes : List String) (evs : List Event) (i : Nat) : Int :=
  if 2 ≤ (dupGroup evs i).length then
    (evs.getD i default).ts - ((dupRank stopUsageTypes evs i : Int) + 1)
  else (evs.getD i default).ts

/-- Monotonicity of `countP` under pointwise implication of predicates. -/
theorem countP_le_countP_of_imp {α : Type} (p q : α → Bool)
    (himp : ∀ a, p a = true → q a = true) : ∀ l : List α, l.countP p ≤ l.countP q := by
  intro l
  induction l with
  | nil => simp [List.countP_nil]
  | cons a t ih =>
    rw [List.countP_cons, List.countP_cons]
    by_cases hpa : p a = true
    · rw [if_pos hpa, if_pos (himp a hpa)]; omega
    · rw [if_neg hpa]; split <;> omega

/-- Strict `countP` monotonicity: if `q` extends `p` and some member
satisfies `q` but not `p`, the `q`-count is strictly larger. -/
theorem countP_lt_countP_of_imp {α : Type} (p q : α → Bool)
    (himp : ∀ a, p a = true → q a = true) (x : α) (hpx : p x = false) (hqx : q x = true) :
    ∀ l : List α, x ∈ l → l.countP p < l.countP q := by
  intro l hx
  induction l with
  | nil => cases hx
  | cons a t ih =>
    rw [List.countP_cons, List.countP_cons]
    rcases List.mem_cons.mp hx with rfl | hxt
    · rw [if_neg (by simp [hpx]), if_pos hqx]
      have := countP_le_countP_of_imp p q himp t
      omega
    · have h2 := ih hxt
      by_cases hpa : p a = true
      · rw [if_pos hpa, if_pos (himp a hpa)]; omega
      · rw [if_neg hpa]; split <;> omega

/-- A member not satisfying `p` makes the `p`-count strictly less than the
length. -/
theorem countP_lt_length_of_mem {α : Type} (p : α → Bool) (x : α) (hpx : p x = false) :
    ∀ l : List α, x ∈ l → l.countP p < l.length := by
  intro l hx
  induction l with
  | nil => cases hx
  | cons a t ih =>
    rw [List.countP_cons, List.length_cons]
    rcases List.mem_cons.mp hx with rfl | hxt
    · rw [if_neg (by simp [hpx])]
      have := List.countP_le_length (p := p) (l := t)
      omega
    · have := ih hxt
      split <;> omega

/-- Two distinct members force length at least two. -/
theorem two_le_length_of_two_mem {α : Type} {x y : α} (hne : x ≠ y) :
    ∀ {l : List α}, x ∈ l → y ∈ l → 2 ≤ l.length
  | [], hx, _ => absurd hx (List.not_mem_nil x)
  | [a], hx, hy => by
      rcases List.mem_singleton.mp hx with rfl
      rcases List.mem_singleton.mp hy with rfl
      exact absurd rfl hne
  | _ :: _ :: _, _, _ => by simp [List.length_cons]

/-- Rows with equal instants have the same duplicate group. -/
theorem dupGroup_eq_of_ts_eq (evs : List Event) {i j : Nat}
    (h : (evs.getD i default).ts = (evs.getD j default).ts) :
    dupGroup evs i = dupGroup evs j := by
  unfold dupGroup
  rw [h]

/-- An in-range row belongs to its own duplicate group. -/
theorem mem_dupGroup_self (evs : List Event) {i : Nat} (h : i < evs.length) :
    i ∈ dupGroup evs i := by
  unfold dupGroup
  exact List.mem_filter.mpr ⟨List.mem_range.mpr h, by simp⟩

/-- `lexBefore` is irreflexive. -/
theorem lexBefore_self_false (stopUsageTypes : List String) (evs : List Event) (i : Nat) :
    lexBefore stopUsageTypes evs i i = false := by
  simp [lexBefore]

/-- The rank of a row is strictly below its group's size. -/
theorem dupRank_lt_group_length (stopUsageTypes : List String) (evs : List Event) {i : Nat}
    (h : i < evs.length) :
    dupRank stopUsageTypes evs i < (dupGroup evs i).length := by
  unfold dupRank
  exact countP_lt_length_of_mem (fun j => lexBefore stopUsageTypes evs j i) i
    (lexBefore_self_false stopUsageTypes evs i) _ (mem_dupGroup_self evs h)

/-- A duplicate group is no larger than the table. -/
theorem dupGroup_length_le (evs : List Event) (i : Nat) :
    (dupGroup evs i).length ≤ evs.length := by
  unfold dupGroup
  calc (List.filter _ (List.range evs.length)).length ≤ (List.range evs.length).length :=
        List.length_filter_le _ _
    _ = evs.length := List.length_range evs.length

/-- Strictly earlier lex position means strictly smaller rank (within the
same group). -/
theorem dupRank_lt_dupRank (stopUsageTypes : List String) (evs : List Event) {i j : Nat}
    (hi : i < evs.length) (hts : (evs.getD i default).ts = (evs.getD j default).ts)
    (hlex : lexBefore stopUsageTypes evs i j = true) :
    dupRank stopUsageTypes evs i < dupRank stopUsageTypes evs j := by
  unfold dupRank
  rw [dupGroup_eq_of_ts_eq evs hts]
  refine countP_lt_countP_of_imp (fun k => lexBefore stopUsageTypes evs k i)
    (fun k => lexBefore stopUsageTypes evs k j) ?_ i
    (lexBefore_self_false stopUsageTypes evs i) hlex _ ?_
  · intro a ha
    simp only [lexBefore, Bool.or_eq_true, Bool.and_eq_true, beq_iff_eq,
      decide_eq_true_eq] at ha hlex ⊢
    omega
  · rw [← dupGroup_eq_of_ts_eq evs hts]
    exact mem_dupGroup_self evs hi

end Chronicle

namespace Chronicle

/-- C5 counterexample: an `Activity Resumed` and a configured stop-trigger
event sharing one instant.  After resolution the resumed event sits at
`original - 1 ns` and the stop trigger at `original - 2 ns`, so the resumed
event ends up with the LATER instant, contradicting the claimed
`Resumed < StopTrigger` instant order. -/
theorem duplicate_group_resumed_not_earlier_cex :
    get_priority_for_index ["Activity Stopped"]
      [⟨"a", "Activity Resumed", 1000, none, none⟩,
       ⟨"b", "Activity Stopped", 1000, none, none⟩] 0 = 0 ∧
    get_priority_for_index ["Activity Stopped"]
      [⟨"a", "Activity Resumed", 1000, none, none⟩,
       ⟨"b", "Activity Stopped", 1000, none, none⟩] 1 = 2 ∧
    unaligned_instant ["Activity Stopped"]
      [⟨"a", "Activity Resumed", 1000, none, none⟩,
       ⟨"b", "Activity Stopped", 1000, none, none⟩] 0 = 999 ∧
    unaligned_instant ["Activity Stopped"]
      [⟨"a", "Activity Resumed", 1000, none, none⟩,
       ⟨"b", "Activity Stopped", 1000, none, none⟩] 1 = 998 ∧
    ¬(unaligned_instant ["Activity Stopped"]
        [⟨"a", "Activity Resumed", 1000, none, none⟩,
         ⟨"b", "Activity Stopped", 1000, none, none⟩] 0 <
      unaligned_instant ["Activity Stopped"]
        [⟨"a", "Activity Resumed", 1000, none, none⟩,
         ⟨"b", "Activity Stopped", 1000, none, none⟩] 1) := by
  refine ⟨by decide, by decide, by decide, by decide, by decide⟩

/-- C5 amended: within an original duplicate group, the relative instant
order after resolution is the REVERSE of the priority ordering: a row with a
strictly smaller priority number (`Resumed < Other < StopTrigger < Unknown`)
receives `original - (rank + 1)` ns with a smaller rank, hence a strictly
LATER instant; in particular an `ActivityResumed` event ends up after every
configured stop-trigger event of its group, and unknown interaction types
end up first. -/
theorem duplicate_group_order_reversed (stopUsageTypes : List String) (evs : List Event)
    (i j : Nat) (hi : i < evs.length) (hj : j < evs.length)
    (hts : (evs.getD i default).ts = (evs.getD j default).ts)
    (hp : get_priority_for_index stopUsageTypes evs i <
      get_priority_for_index stopUsageTypes evs j) :
    unaligned_instant stopUsageTypes evs j < unaligned_instant stopUsageTypes evs i := by
  have hne : i ≠ j := fun h => by rw [h] at hp; omega
  have hlex : lexBefore stopUsageTypes evs i j = true := by
    simp only [lexBefore, Bool.or_eq_true, Bool.and_eq_true, beq_iff_eq, decide_eq_true_eq]
    omega
  have hrank := dupRank_lt_dupRank stopUsageTypes evs hi hts hlex
  have hgrp : dupGroup evs i = dupGroup evs j := dupGroup_eq_of_ts_eq evs hts
  have h2 : 2 ≤ (dupGroup evs i).length :=
    two_le_length_of_two_mem hne (mem_dupGroup_self evs hi)
      (hgrp ▸ mem_dupGroup_self evs hj)
  unfold unaligned_instant
  rw [if_pos h2, if_pos (hgrp ▸ h2), hts]
  omega

/-- C5 amended witness: in the two-event duplicate group above, the stop
trigger's resolved instant is strictly before the resumed event's. -/
theorem duplicate_group_order_reversed_witness :
    unaligned_instant ["Activity Stopped"]
      [⟨"a", "Activity Resumed", 1000, none, none⟩,
       ⟨"b", "Activity Stopped", 1000, none, none⟩] 1 <
    unaligned_instant ["Activity Stopped"]
      [⟨"a", "Activity Resumed", 1000, none, none⟩,
       ⟨"b", "Activity Stopped", 1000, none, none⟩] 0 :=
  duplicate_group_order_reversed ["Activity Stopped"]
    [⟨"a", "Activity Resumed", 1000, none, none⟩, ⟨"b", "Activity Stopped", 1000, none, none⟩]
    0 1 (by decide) (by decide) (by decide) (by decide)

/-- C6 counterexample: a singleton event one nanosecond below a duplicate
pair.  Perturbing the pair lands its first member exactly on the singleton's
instant, so two distinct rows share the instant `999` after resolution. -/
theorem unaligned_instants_collision_cex :
    unaligned_instant []
      [⟨"a", "Screen Interactive", 999, none, none⟩, ⟨"a", "Activity Paused", 1000, none, none⟩,
       ⟨"b", "Activity Paused", 1000, none, none⟩] 0 = 999 ∧
    unaligned_instant []
      [⟨"a", "Screen Interactive", 999, none, none⟩, ⟨"a", "Activity Paused", 1000, none, none⟩,
       ⟨"b", "Activity Paused", 1000, none, none⟩] 1 = 999 ∧
    (0 : Nat) ≠ 1 := by
  refine ⟨by decide, by decide, by decide⟩

/-- C6 amended: after duplicate resolution all instants are pairwise
distinct, provided any two rows with different original instants are
separated by more than the table's row count (in nanoseconds) — the
perturbation subtracts at most the group size, so sufficiently separated
instants cannot collide, and ranks distinguish rows within one group. -/
theorem unaligned_instants_unique_of_separated (stopUsageTypes : List String)
    (evs : List Event)
    (hsep : ∀ i < evs.length, ∀ j < evs.length,
      (evs.getD i default).ts ≠ (evs.getD j default).ts →
      (evs.getD i default).ts + evs.length < (evs.getD j default).ts ∨
        (evs.getD j default).ts + evs.length < (evs.getD i default).ts) :
    ∀ i < evs.length, ∀ j < evs.length, i ≠ j →
      unaligned_instant stopUsageTypes evs i ≠ unaligned_instant stopUsageTypes evs j := by
  have hbound : ∀ k, k < evs.length →
      (evs.getD k default).ts - evs.length ≤ unaligned_instant stopUsageTypes evs k ∧
        unaligned_instant stopUsageTypes evs k ≤ (evs.getD k default).ts := by
    intro k hk
    unfold unaligned_instant
    split
    · have h1 := dupRank_lt_group_length stopUsageTypes evs hk
      have h2 := dupGroup_length_le evs k
      constructor <;> omega
    · constructor <;> omega
  intro i hi j hj hne heq
  by_cases hts : (evs.getD i default).ts = (evs.getD j default).ts
  · have hgrp : dupGroup evs i = dupGroup evs j := dupGroup_eq_of_ts_eq evs hts
    have h2 : 2 ≤ (dupGroup evs i).length :=
      two_le_length_of_two_mem hne (mem_dupGroup_self evs hi)
        (hgrp ▸ mem_dupGroup_self evs hj)
    have hranks : dupRank stopUsageTypes evs i ≠ dupRank stopUsageTypes evs j := by
      rcases Nat.lt_trichotomy (get_priority_for_index stopUsageTypes evs i)
          (get_priority_for_index stopUsageTypes evs j) with hlt | heqp | hgt
      · have := dupRank_lt_dupRank stopUsageTypes evs hi hts (by
          simp only [lexBefore, Bool.or_eq_true, Bool.and_eq_true, beq_iff_eq,
            decide_eq_true_eq]
          omega)
        omega
      · rcases Nat.lt_or_ge i j with hij | hij
        · have := dupRank_lt_dupRank stopUsageTypes evs hi hts (by
            simp only [lexBefore, Bool.or_eq_true, Bool.and_eq_true, beq_iff_eq,
              decide_eq_true_eq]
            omega)
          omega
        · have hji : j < i := by omega
          have := dupRank_lt_dupRank stopUsageTypes evs hj hts.symm (by
            simp only [lexBefore, Bool.or_eq_true, Bool.and_eq_true, beq_iff_eq,
              decide_eq_true_eq]
            omega)
          omega
      · have := dupRank_lt_dupRank stopUsageTypes evs hj hts.symm (by
          simp only [lexBefore, Bool.or_eq_true, Bool.and_eq_true, beq_iff_eq,
            decide_eq_true_eq]
          omega)
        omega
    unfold unaligned_instant at heq
    rw [if_pos h2, if_pos (hgrp ▸ h2), hts] at heq
    omega
  · rcases hsep i hi j hj hts with h | h
    · have b1 := hbound i hi
      have b2 := hbound j hj
      omega
    · have b1 := hbound i hi
      have b2 := hbound j hj
      omega

/-- C6 amended witness: a well-separated table (a single duplicate pair)
gets distinct resolved instants for its two rows. -/
theorem unaligned_instants_unique_of_separated_witness :
    unaligned_instant []
      [⟨"a", "Activity Paused", 1000, none, none⟩, ⟨"b", "Activity Paused", 1000, none, none⟩]
      0 ≠
    unaligned_instant []
      [⟨"a", "Activity Paused", 1000, none, none⟩, ⟨"b", "Activity Paused", 1000, none, none⟩]
      1 :=
  unaligned_instants_unique_of_separated []
    [⟨"a", "Activity Paused", 1000, none, none⟩, ⟨"b", "Activity Paused", 1000, none, none⟩]
    (by decide) 0 (by decide) 1 (by decide) (by decide)

end Chronicle

namespace Chronicle

/-- A label produced by `_get_app_usage_flags`: the f-string
`">{threshold}-HR TIME GAP"` / `">{threshold}-HR APP USAGE"` carrying its
threshold. -/
inductive UsageFlag where
  | timeGap (threshold : ℚ)
  | appUsage (threshold : ℚ)
  deriving Repr, DecidableEq

/-- `sorted(thresholds, reverse=True)`: descending sort of the ladder. -/
def sortDesc (l : List ℚ) : List ℚ :=
  l.insertionSort (· ≥ ·)

/-- The inner for/break loop of `_get_app_usage_flags`: the first threshold
of the descending-sorted ladder that the value meets or exceeds. -/
def firstThresholdHit (sorted : List ℚ) (v : ℚ) : Option ℚ :=
  sorted.find? fun t => decide (v ≥ t)

/-- `_get_app_usage_flags` for one row (`app_usage_preprocessor.py` lines
615-658): at most one time-gap flag (from the gap in hours) followed by at
most one duration flag (duration given in minutes, compared in hours). -/
def row_app_usage_flags (timeGapThresholds durationThresholds : List ℚ)
    (gapHours durationMinutes : ℚ) : List UsageFlag :=
  (match firstThresholdHit (sortDesc timeGapThresholds) gapHours with
   | some t => [UsageFlag.timeGap t]
   | none => []) ++
  (match firstThresholdHit (sortDesc durationThresholds) (durationMinutes / 60) with
   | some t => [UsageFlag.appUsage t]
   | none => [])

/-- `add_app_usage_flags` (lines 589-613): when a configured ladder is falsy
(empty), substitute the hard-coded ladder `[3, 6, 12, 24]`; then compute the
per-row flag lists.  Each row is a `(data_time_gap_hours, duration_minutes)`
pair. -/
def add_app_usage_flags (longDataTimeGapThresholds longUsageDurationThresholds : List ℚ)
    (rows : List (ℚ × ℚ)) : List (List UsageFlag) :=
  let t := if longDataTimeGapThresholds = [] then [3, 6, 12, 24]
    else longDataTimeGapThresholds
  let d := if longUsageDurationThresholds = [] then [3, 6, 12, 24]
    else longUsageDurationThresholds
  rows.map fun r => row_app_usage_flags t d r.1 r.2

/-- Evaluation of the inner scan against the hard-coded default ladder
`[3, 6, 12, 24]` of `add_app_usage_flags`. -/
theorem firstThresholdHit_default_ladder (v : ℚ) :
    firstThresholdHit (sortDesc [(3 : ℚ), 6, 12, 24]) v =
      (if 24 ≤ v then some 24 else if 12 ≤ v then some 12 else if 6 ≤ v then some 6
        else if 3 ≤ v then some 3 else none) := by
  have hs : sortDesc [(3 : ℚ), 6, 12, 24] = [24, 12, 6, 3] := by decide
  rw [firstThresholdHit, hs]
  by_cases h1 : (24 : ℚ) ≤ v
  · simp [List.find?, ge_iff_le, h1]
  · by_cases h2 : (12 : ℚ) ≤ v
    · simp [List.find?, ge_iff_le, h1, h2]
    · by_cases h3 : (6 : ℚ) ≤ v
      · simp [List.find?, ge_iff_le, h1, h2, h3]
      · by_cases h4 : (3 : ℚ) ≤ v
        · simp [List.find?, ge_iff_le, h1, h2, h3, h4]
        · simp [List.find?, ge_iff_le, h1, h2, h3, h4]

/-- C9 counterexample: with unset (empty) ladders, a 2-hour time gap gets no
flag, although the claimed default ladder `[1, 6, 12, 24]` would assign the
`>1-HR TIME GAP` label (`2 ≥ 1`). -/
theorem flag_default_ladder_cex :
    add_app_usage_flags [] [] [(2, 0)] = [[]] ∧
    firstThresholdHit (sortDesc [1, 6, 12, 24]) 2 = some 1 := by
  constructor
  · simp only [add_app_usage_flags, List.map_cons, List.map_nil, row_app_usage_flags,
      eq_self_iff_true, if_true, firstThresholdHit_default_ladder]
    norm_num
  · decide

/-- C9 amended: when a threshold ladder is unset (empty), the flag annotator
uses the hard-coded default ladder `[3, 6, 12, 24]` hours; first-match-wins
under the descending order assigns the largest qualifying threshold on each
axis. -/
theorem flag_default_ladder_is_3_6_12_24 (g d : ℚ) :
    add_app_usage_flags [] [] [(g, d)] =
      [(if 24 ≤ g then [UsageFlag.timeGap 24]
        else if 12 ≤ g then [UsageFlag.timeGap 12]
        else if 6 ≤ g then [UsageFlag.timeGap 6]
        else if 3 ≤ g then [UsageFlag.timeGap 3]
        else []) ++
       (if 24 ≤ d / 60 then [UsageFlag.appUsage 24]
        else if 12 ≤ d / 60 then [UsageFlag.appUsage 12]
        else if 6 ≤ d / 60 then [UsageFlag.appUsage 6]
        else if 3 ≤ d / 60 then [UsageFlag.appUsage 3]
        else [])] := by
  simp only [add_app_usage_flags, List.map_cons, List.map_nil, row_app_usage_flags,
    eq_self_iff_true, if_true, firstThresholdHit_default_ladder]
  split_ifs <;> rfl

/-- pandas `value_counts(...).index[0]` / `mode()[0]` model: the most
frequent element (ties resolved toward the earliest first occurrence);
`none` on an empty list. -/
def mostCommon (l : List String) : Option String :=
  l.foldl
    (fun acc s =>
      match acc with
      | none => some s
      | some b => if l.count b < l.count s then some s else acc)
    none

/-- `determine_primary_timezone` (`timezone_preprocessor.py` lines 160-201)
in state-passing form.  `state` is the instance attribute
`self.current_data_primary_timezone` (set to `None` in `__init__` and kept
across calls); `tzColumnValues` are the non-null entries of the `timezone`
column; `timestampTimezones` the timezone labels extracted from the parsed
timestamp column.  Returns the primary timezone together with the updated
instance state.  Note the UTC fallback fires only when the carried state is
still `None`; otherwise the stale state from an earlier table is returned. -/
def determine_primary_timezone (state : Option String) (tzColumnValues : List String)
    (timestampTimezones : List String) : String × Option String :=
  match mostCommon tzColumnValues with
  | some t => (t, some t)
  | none =>
    match mostCommon timestampTimezones with
    | some t => (t, some t)
    | none =>
      match state with
      | some s => (s, some s)
      | none => ("UTC", some "UTC")

/-- C10: the engine is NOT stateless across calls.  A fresh instance resolves
a table with no timezone information to the UTC fallback, but after
processing a table whose timezone column holds `America/New_York` the same
instance resolves the identical no-information table to the stale
`America/New_York` — the code's own "use UTC as fallback" comment
notwithstanding. -/
theorem primary_timezone_stale_state_bug :
    (determine_primary_timezone none [] []).1 = "UTC" ∧
    (determine_primary_timezone none ["America/New_York"] []).2 =
      some "America/New_York" ∧
    (determine_primary_timezone
        (determine_primary_timezone none ["America/New_York"] []).2 [] []).1 =
      "America/New_York" ∧
    (determine_primary_timezone
        (determine_primary_timezone none ["America/New_York"] []).2 [] []).1 ≠
      (determine_primary_timezone none [] []).1 := by
  refine ⟨by decide, by decide, by decide, by decide⟩

/-- Outcome of `preprocess_Chronicle_Android_raw_data_file`
(`main_preprocessor.py` lines 607-676) for one participant file: either the
processed table reaches the save step, or an exception was caught by the
generic handler (line 673), recorded via `stats.mark_error`, and the file
aborted with `success = False`. -/
inductive FileOutcome where
  | savedTable (table : List Event)
  | errorMarked (e : UsageError)
  deriving Repr, DecidableEq

/-- The usage stages of `preprocess_Chronicle_Android_raw_data_file`:
`process_filtered_app_usage_rows` (which can raise `DisorderedTimestamps`
from its own check, line 211) followed by `process_valid_app_usage_rows`,
whose `EmptyDataError` is re-raised (lines 442-448) and whose
`DisorderedTimestamps` propagates; every raise is caught by the per-file
handler as a generic error. -/
def preprocess_usage_stages (sameStop otherStop fSameStop fOtherStop : List String)
    (evs : List Event) : FileOutcome :=
  match process_filtered_app_usage fSameStop fOtherStop evs with
  | .error e => .errorMarked e
  | .ok t1 =>
    match process_valid_app_usage sameStop otherStop t1 with
    | .ok t2 => .savedTable t2
    | .error e => .errorMarked e

end Chronicle

namespace Chronicle

/-- `process_filtered_app_usage` never introduces `Activity Resumed` or
`Activity Paused` rows in a table it returns: it only re-tags rows to
`End of Usage Missing` or renames `Filtered App Resumed` to
`Filtered App Usage`. -/
theorem process_filtered_preserves_no_valid (fSameStop fOtherStop : List String)
    (evs : List Event)
    (h : ∀ e ∈ evs, e.it ≠ "Activity Resumed" ∧ e.it ≠ "Activity Paused") :
    ∀ t1, process_filtered_app_usage fSameStop fOtherStop evs = .ok t1 →
      ∀ e' ∈ t1, e'.it ≠ "Activity Resumed" ∧ e'.it ≠ "Activity Paused" := by
  intro t1 ht1 e' he'
  unfold process_filtered_app_usage at ht1
  split at ht1
  · rw [← Except.ok.inj ht1] at he'
    exact h e' he'
  · split at ht1
    · exact Except.noConfusion ht1
    · rw [← Except.ok.inj ht1] at he'
      unfold filtered_usage_table at he'
      rcases List.mem_map.mp he' with ⟨x, hx, rfl⟩
      rcases List.mem_filter.mp hx with ⟨hxm, _⟩
      rcases List.mem_map.mp hxm with ⟨i, hi, rfl⟩
      have hcases : (resolveFilteredRow fSameStop fOtherStop evs i).it =
          "End of Usage Missing" ∨
          (resolveFilteredRow fSameStop fOtherStop evs i).it = (evs.getD i default).it := by
        unfold resolveFilteredRow
        split
        · split
          · right; rfl
          · left; rfl
        · right; rfl
      by_cases hy : ((resolveFilteredRow fSameStop fOtherStop evs i).it ==
          "Filtered App Resumed") = true
      · rw [if_pos hy]
        exact ⟨by simp, by simp⟩
      · rw [if_neg hy]
        rcases hcases with hE | hO
        · rw [hE]
          exact ⟨by decide, by decide⟩
        · rw [hO]
          exact h _ (getD_mem_of_lt evs i (List.mem_range.mp hi))

/-- C8 counterexample: a participant table with no resumable valid usage
events.  The usage stages end in the generic error handler
(`stats.mark_error`, `success = False`) rather than a non-fatal empty-file
outcome, and no interval table of any kind (in particular no empty one) is
produced. -/
theorem empty_usage_marks_error_cex :
    preprocess_usage_stages ["Activity Paused"] ["Device Shutdown"] ["Filtered App Paused"]
        ["Device Shutdown"] [⟨"a", "Screen Interactive", 0, none, none⟩] =
      .errorMarked (.emptyUsageData "No valid app usage data during the study period") ∧
    ∀ t, preprocess_usage_stages ["Activity Paused"] ["Device Shutdown"]
        ["Filtered App Paused"] ["Device Shutdown"]
        [⟨"a", "Screen Interactive", 0, none, none⟩] ≠ .savedTable t := by
  have h1 : preprocess_usage_stages ["Activity Paused"] ["Device Shutdown"]
      ["Filtered App Paused"] ["Device Shutdown"]
      [⟨"a", "Screen Interactive", 0, none, none⟩] =
      .errorMarked (.emptyUsageData "No valid app usage data during the study period") := rfl
  exact ⟨h1, fun t ht => FileOutcome.noConfusion (h1 ▸ ht)⟩

/-- C8 amended: when a participant's event table contains no resumable valid
usage events, the usage stages always abort that participant's file with a
recorded error — never a non-fatal empty-table outcome.  When the filtered
stage returns a table (its own disordered-timestamps check passes or is
skipped), the error is the `EmptyDataError` of `process_valid_app_usage`;
otherwise it is the filtered stage's `DisorderedTimestamps`.  Other
participants' files are unaffected since each file is processed by a
separate call. -/
theorem empty_usage_aborts_file (sameStop otherStop fSameStop fOtherStop : List String)
    (evs : List Event)
    (h : ∀ e ∈ evs, e.it ≠ "Activity Resumed" ∧ e.it ≠ "Activity Paused") :
    (∃ e, preprocess_usage_stages sameStop otherStop fSameStop fOtherStop evs =
      .errorMarked e) ∧
    (∀ t1, process_filtered_app_usage fSameStop fOtherStop evs = .ok t1 →
      preprocess_usage_stages sameStop otherStop fSameStop fOtherStop evs =
        .errorMarked (.emptyUsageData "No valid app usage data during the study period")) := by
  cases hf : process_filtered_app_usage fSameStop fOtherStop evs with
  | error e =>
      constructor
      · exact ⟨e, by unfold preprocess_usage_stages; rw [hf]⟩
      · intro t1 ht1
        exact Except.noConfusion ht1
  | ok t1 =>
      have hpres := process_filtered_preserves_no_valid fSameStop fOtherStop evs h t1 hf
      have hany : (t1.any fun e =>
          e.it == "Activity Resumed" || e.it == "Activity Paused") = false := by
        rw [List.any_eq_false]
        intro e he
        have h2 := hpres e he
        simp only [Bool.or_eq_true, beq_iff_eq]
        rintro (h3 | h3)
        · exact absurd h3 h2.1
        · exact absurd h3 h2.2
      have hvalid : process_valid_app_usage sameStop otherStop t1 =
          .error (.emptyUsageData "No valid app usage data during the study period") := by
        unfold process_valid_app_usage
        rw [hany]
        rfl
      have hstages : preprocess_usage_stages sameStop otherStop fSameStop fOtherStop evs =
          .errorMarked (.emptyUsageData "No valid app usage data during the study period") := by
        unfold preprocess_usage_stages
        rw [hf]
        show (match process_valid_app_usage sameStop otherStop t1 with
          | Except.ok t2 => FileOutcome.savedTable t2
          | Except.error e => FileOutcome.errorMarked e) =
          FileOutcome.errorMarked
            (UsageError.emptyUsageData "No valid app usage data during the study period")
        rw [hvalid]
      exact ⟨⟨_, hstages⟩, fun t1' ht1' => hstages⟩

/-- C8 amended witness: the single-row no-usage table is aborted with an
error, and — the filtered stage passing it through — specifically with the
`EmptyDataError` message. -/
theorem empty_usage_aborts_file_witness :
    (∃ e, preprocess_usage_stages ["Activity Paused"] ["Activity Stopped"]
        ["Filtered App Paused"] ["Filtered App Stopped"]
        [⟨"b", "Screen Non-Interactive", 5, none, none⟩] = .errorMarked e) ∧
    (∀ t1, process_filtered_app_usage ["Filtered App Paused"] ["Filtered App Stopped"]
        [⟨"b", "Screen Non-Interactive", 5, none, none⟩] = .ok t1 →
      preprocess_usage_stages ["Activity Paused"] ["Activity Stopped"]
          ["Filtered App Paused"] ["Filtered App Stopped"]
          [⟨"b", "Screen Non-Interactive", 5, none, none⟩] =
        .errorMarked (.emptyUsageData "No valid app usage data during the study period")) :=
  empty_usage_aborts_file ["Activity Paused"] ["Activity Stopped"] ["Filtered App Paused"]
    ["Filtered App Stopped"] [⟨"b", "Screen Non-Interactive", 5, none, none⟩] (by decide)

end Chronicle

namespace Chronicle

/-- `is_valid_interaction` of `_process_row_app_usage_details` (lines
441-455): after the try/except dance the flag is simply membership in
`{App Usage, Filtered App Usage}`. -/
def isUsageRow (s : String) : Bool :=
  s == "App Usage" || s == "Filtered App Usage"

/-- The eight engagement columns written by `add_app_usage_details` for one
row; `none` is a pandas `NaN` (column untouched for non-usage rows).  The
gap-hours columns hold the float floor `time_since // 3600`. -/
structure EngageFlags where
  valid30 : Option Int := none
  validCustom : Option Int := none
  validSwitched : Option Int := none
  validGapHours : Option Int := none
  any30 : Option Int := none
  anyCustom : Option Int := none
  anySwitched : Option Int := none
  anyGapHours : Option Int := none
  deriving Repr, DecidableEq, Inhabited

/-- `columns_defaults` (lines 382-400): zero defaults on the rows matched by
each mask — `valid_*` columns on `App Usage` rows, `any_*` columns on both
usage categories; other rows keep `NaN`. -/
def defaultFlags (r : Event) : EngageFlags where
  valid30 := if r.it == "App Usage" then some 0 else none
  validCustom := if r.it == "App Usage" then some 0 else none
  validSwitched := if r.it == "App Usage" then some 0 else none
  validGapHours := if r.it == "App Usage" then some 0 else none
  any30 := if isUsageRow r.it then some 0 else none
  anyCustom := if isUsageRow r.it then some 0 else none
  anySwitched := if isUsageRow r.it then some 0 else none
  anyGapHours := if isUsageRow r.it then some 0 else none

/-- `_set_first_app_use_engagement_values` (lines 474-489): valid rows get
the two `valid_*` engagement flags, filtered rows the two `any_*` flags. -/
def set_first_app_use_engagement_values (isAppUsage : Bool) (f : EngageFlags) : EngageFlags :=
  if isAppUsage then { f with valid30 := some 1, validCustom := some 1 }
  else { f with any30 := some 1, anyCustom := some 1 }

/-- `_traverse_app_usage_backward_rows` (lines 544-587): scan backward over
`App Usage` rows; the fuel argument `j + 1` means row `j` is inspected next.
On the first hit, set the switched flag when the apps differ, `continue`
past rows with missing timestamps (keeping the switched flag), otherwise
write the `valid_*` gap columns and stop. -/
def traverse_app_usage_backward_rows (rows : List Event) (i : Nat) (custom : Int) :
    EngageFlags → Nat → EngageFlags
  | f, 0 => f
  | f, j + 1 =>
    if !((rows.getD j default).it == "App Usage") then
      traverse_app_usage_backward_rows rows i custom f j
    else
      let f1 := if !((rows.getD i default).app == (rows.getD j default).app) then
          { f with validSwitched := some 1 }
        else f
      match (rows.getD i default).start, (rows.getD j default).stop with
      | some s, some t =>
          let f2 := if 30 < s - t then { f1 with valid30 := some 1 } else f1
          let f3 := if custom < s - t then { f2 with validCustom := some 1 } else f2
          { f3 with validGapHours := some ((s - t).fdiv 3600) }
      | _, _ => traverse_app_usage_backward_rows rows i custom f1 j

/-- `_traverse_backward_rows` (lines 491-542): scan backward over usage rows
of either category (the `isinstance` guard plus the membership test skip
everything else).  On the first hit set the any-switched flag when the apps
differ, `continue` past missing timestamps, otherwise write the `any_*` gap
columns, run the valid-only backward scan when the current row is
`App Usage`, and stop. -/
def traverse_backward_rows (rows : List Event) (i : Nat) (custom : Int) :
    EngageFlags → Nat → EngageFlags
  | f, 0 => f
  | f, j + 1 =>
    if !(isUsageRow (rows.getD j default).it) then
      traverse_backward_rows rows i custom f j
    else
      let f1 := if !((rows.getD i default).app == (rows.getD j default).app) then
          { f with anySwitched := some 1 }
        else f
      match (rows.getD i default).start, (rows.getD j default).stop with
      | some s, some t =>
          let f2 := if 30 < s - t then { f1 with any30 := some 1 } else f1
          let f3 := if custom < s - t then { f2 with anyCustom := some 1 } else f2
          let f4 := { f3 with anyGapHours := some ((s - t).fdiv 3600) }
          if (rows.getD i default).it == "App Usage" then
            traverse_app_usage_backward_rows rows i custom f4 i
          else f4
      | _, _ => traverse_backward_rows rows i custom f1 j

/-- First index satisfying a predicate. -/
def findFirstIdx (p : Event → Bool) : List Event → Option Nat
  | [] => none
  | r :: l => if p r then some 0 else (findFirstIdx p l).map (· + 1)

/-- `app_usage_row_indices[0]` (line 402): the first `App Usage` row. -/
def app_usage_row_indices_head (rows : List Event) : Option Nat :=
  findFirstIdx (fun r => r.it == "App Usage") rows

/-- The first usage row of either category — the row at which the
`first_app_set` accumulator flips. -/
def firstUsageIdx (rows : List Event) : Option Nat :=
  findFirstIdx (fun r => isUsageRow r.it) rows

/-- `_process_row_app_usage_details` (lines 415-472) for row `i` given the
running `first_app_set` accumulator: returns the row's final flag columns
(defaults plus the writes made for this row) and the updated accumulator. -/
def process_row_app_usage_details (rows : List Event) (custom : Int) (i : Nat)
    (first_app_set : Bool) : EngageFlags × Bool :=
  let r := rows.getD i default
  if !first_app_set then
    if isUsageRow r.it then
      (set_first_app_use_engagement_values (r.it == "App Usage") (defaultFlags r), true)
    else (defaultFlags r, first_app_set)
  else if 0 < i && isUsageRow r.it then
    if app_usage_row_indices_head rows == some i && r.it == "App Usage" then
      (set_first_app_use_engagement_values true (defaultFlags r), first_app_set)
    else (traverse_backward_rows rows i custom (defaultFlags r) i, first_app_set)
  else (defaultFlags r, first_app_set)

/-- The row loop of `add_app_usage_details` (lines 406-410), threading the
`first_app_set` accumulator from row `i` for `fuel` rows. -/
def add_app_usage_details_aux (rows : List Event) (custom : Int) :
    Bool → Nat → Nat → List EngageFlags
  | _, _, 0 => []
  | fas, i, fuel + 1 =>
    let fr := process_row_app_usage_details rows custom i fas
    fr.1 :: add_app_usage_details_aux rows custom fr.2 (i + 1) fuel

/-- `add_app_usage_details` (lines 368-413): the per-row engagement columns
of the whole table, scanning with `first_app_set = False` from row 0. -/
def add_app_usage_details (rows : List Event) (custom : Int) : List EngageFlags :=
  add_app_usage_details_aux rows custom false 0 rows.length

end Chronicle

namespace Chronicle

/-- The `first_app_set` accumulator after one row is the old value or-ed with
"this row is a usage row". -/
theorem process_row_app_usage_details_snd (rows : List Event) (custom : Int) (i : Nat)
    (fas : Bool) :
    (process_row_app_usage_details rows custom i fas).2 =
      (fas || isUsageRow (rows.getD i default).it) := by
  cases fas with
  | false =>
      unfold process_row_app_usage_details
      simp only [Bool.not_false, if_true, Bool.false_or]
      by_cases hv : isUsageRow (rows.getD i default).it = true
      · rw [if_pos hv, hv]
      · rw [if_neg hv, Bool.eq_false_iff.mpr hv]
  | true =>
      unfold process_row_app_usage_details
      simp only [Bool.not_true, Bool.false_eq_true, if_false, Bool.true_or]
      split
      · split
        · rfl
        · rfl
      · rfl

/-- Indexing the row loop: the flags of row `i + k` are those computed by
`process_row_app_usage_details` with the accumulator accumulated over the
`k` preceding rows. -/
theorem add_app_usage_details_aux_get? (rows : List Event) (custom : Int) :
    ∀ (fuel i k : Nat) (fas : Bool), k < fuel →
      (add_app_usage_details_aux rows custom fas i fuel).get? k =
        some (process_row_app_usage_details rows custom (i + k)
          (fas || (List.range' i k).any fun m => isUsageRow (rows.getD m default).it)).1 := by
  intro fuel
  induction fuel with
  | zero => intro i k fas h; omega
  | succ n ih =>
    intro i k fas h
    cases k with
    | zero =>
        simp [add_app_usage_details_aux, List.range']
    | succ m =>
        simp only [add_app_usage_details_aux, List.get?_cons_succ]
        rw [ih (i + 1) m (process_row_app_usage_details rows custom i fas).2 (by omega)]
        rw [process_row_app_usage_details_snd,
          show i + 1 + m = i + (m + 1) from by omega,
          show List.range' i (m + 1) = i :: List.range' (i + 1) m from rfl,
          List.any_cons, Bool.or_assoc]

/-- Flags of row `k` in terms of the per-row function and the prefix
accumulator. -/
theorem add_app_usage_details_get? (rows : List Event) (custom : Int) (k : Nat)
    (h : k < rows.length) :
    (add_app_usage_details rows custom).get? k =
      some (process_row_app_usage_details rows custom k
        ((List.range' 0 k).any fun m => isUsageRow (rows.getD m default).it)).1 := by
  unfold add_app_usage_details
  rw [add_app_usage_details_aux_get? rows custom rows.length 0 k false h]
  simp

/-- Characterisation of `findFirstIdx`. -/
theorem findFirstIdx_spec (p : Event → Bool) :
    ∀ (rows : List Event) (i : Nat), findFirstIdx p rows = some i →
      i < rows.length ∧ p (rows.getD i default) = true ∧
        ∀ m, m < i → p (rows.getD m default) = false := by
  intro rows
  induction rows with
  | nil => intro i h; simp [findFirstIdx] at h
  | cons r l ih =>
    intro i h
    unfold findFirstIdx at h
    by_cases hp : p r = true
    · rw [if_pos hp] at h
      obtain rfl : (0 : Nat) = i := Option.some.inj h
      refine ⟨by simp, by simpa using hp, ?_⟩
      intro m hm
      exact absurd hm (Nat.not_lt_zero m)
    · rw [if_neg hp] at h
      obtain ⟨j, hj, rfl⟩ := Option.map_eq_some'.mp h
      obtain ⟨h1, h2, h3⟩ := ih j hj
      refine ⟨by simpa using Nat.succ_lt_succ h1, by simpa using h2, ?_⟩
      intro m hm
      cases m with
      | zero => simpa using Bool.eq_false_iff.mpr hp
      | succ m' => simpa using h3 m' (by omega)

/-- A first index for a stronger predicate bounds a first index for a weaker
one. -/
theorem findFirstIdx_le (p q : Event → Bool) (himp : ∀ r, p r = true → q r = true) :
    ∀ (rows : List Event) (i : Nat), findFirstIdx p rows = some i →
      ∃ k, k ≤ i ∧ findFirstIdx q rows = some k := by
  intro rows
  induction rows with
  | nil => intro i h; simp [findFirstIdx] at h
  | cons r l ih =>
    intro i h
    unfold findFirstIdx at h
    by_cases hq : q r = true
    · exact ⟨0, Nat.zero_le i, by unfold findFirstIdx; rw [if_pos hq]⟩
    · have hp : p r = false := by
        cases hpr : p r
        · rfl
        · exact absurd (himp r hpr) hq
      rw [if_neg (by simp [hp])] at h
      obtain ⟨j, hj, rfl⟩ := Option.map_eq_some'.mp h
      obtain ⟨k, hk, hfk⟩ := ih j hj
      refine ⟨k + 1, by omega, ?_⟩
      unfold findFirstIdx
      rw [if_neg hq, hfk]
      rfl

/-- Membership in `List.range'` with step 1. -/
theorem mem_range'_iff : ∀ (n s m : Nat), m ∈ List.range' s n ↔ s ≤ m ∧ m < s + n := by
  intro n
  induction n with
  | zero =>
      intro s m
      simp [List.range']
  | succ n ih =>
      intro s m
      rw [show List.range' s (n + 1) = s :: List.range' (s + 1) n from rfl, List.mem_cons,
        ih (s + 1) m]
      omega

end Chronicle

namespace Chronicle

/-- The first usage row (accumulator still false) is handed to
`_set_first_app_use_engagement_values`. -/
theorem process_row_first_usage (rows : List Event) (custom : Int) (i : Nat)
    (hv : isUsageRow (rows.getD i default).it = true) :
    process_row_app_usage_details rows custom i false =
      (set_first_app_use_engagement_values ((rows.getD i default).it == "App Usage")
        (defaultFlags (rows.getD i default)), true) := by
  unfold process_row_app_usage_details
  rw [if_pos (show (!false) = true from rfl), if_pos hv]

/-- A later row that is the first `App Usage` row is also handed to
`_set_first_app_use_engagement_values` (with `is_app_usage = True`). -/
theorem process_row_first_valid_later (rows : List Event) (custom : Int) (i : Nat)
    (h0 : 0 < i) (hpi : ((rows.getD i default).it == "App Usage") = true)
    (hhead : app_usage_row_indices_head rows = some i) :
    process_row_app_usage_details rows custom i true =
      (set_first_app_use_engagement_values true (defaultFlags (rows.getD i default)), true) := by
  have husage : isUsageRow (rows.getD i default).it = true := by
    unfold isUsageRow
    rw [hpi]
    rfl
  have hcond : (decide (0 < i) && isUsageRow (rows.getD i default).it) = true := by
    rw [decide_eq_true h0, husage]
    rfl
  have hcond2 : ((app_usage_row_indices_head rows == some i) &&
      ((rows.getD i default).it == "App Usage")) = true := by
    rw [hhead, hpi, beq_self_eq_true]
    rfl
  unfold process_row_app_usage_details
  rw [if_neg (show ¬((!true) = true) from by decide), if_pos hcond, if_pos hcond2]

/-- C7 counterexample: a participant run whose first (and only) usage row is
a valid `App Usage` row.  That row is simultaneously the first any-usage
row, yet its `any_app_new_engage_30s` / custom columns remain at the default
`0` — only the `valid_*` flags are set, contradicting the claim that the
first any-usage row gets the any-scope flags regardless of category. -/
theorem first_any_row_valid_no_any_flags_cex :
    (add_app_usage_details [⟨"a", "App Usage", 0, some 0, some 10⟩] 300).get? 0 =
      some { valid30 := some 1, validCustom := some 1, validSwitched := some 0,
             validGapHours := some 0, any30 := some 0, anyCustom := some 0,
             anySwitched := some 0, anyGapHours := some 0 } ∧
    firstUsageIdx [⟨"a", "App Usage", 0, some 0, some 10⟩] = some 0 ∧
    (some (0 : Int) ≠ some 1) := ⟨rfl, rfl, by decide⟩

/-- C7 amended: the first chronological `App Usage` row always gets both
`valid_*` engagement flags; the first chronological usage row of either
category gets the `any_*` engagement flags only when it is a filtered row —
when the first usage row is a valid row it gets only the `valid_*` flags and
its `any_*` flags stay at the default `0`. -/
theorem first_usage_engagement_flags :
    (∀ (rows : List Event) (custom : Int) (i : Nat),
      app_usage_row_indices_head rows = some i →
      ∃ f, (add_app_usage_details rows custom).get? i = some f ∧
        f.valid30 = some 1 ∧ f.validCustom = some 1) ∧
    (∀ (rows : List Event) (custom : Int) (i : Nat),
      firstUsageIdx rows = some i →
      ∃ f, (add_app_usage_details rows custom).get? i = some f ∧
        ((rows.getD i default).it = "Filtered App Usage" →
          f.any30 = some 1 ∧ f.anyCustom = some 1) ∧
        ((rows.getD i default).it = "App Usage" →
          f.any30 = some 0 ∧ f.anyCustom = some 0)) := by
  constructor
  · intro rows custom i h
    obtain ⟨hlen, hpi, _⟩ := findFirstIdx_spec _ rows i h
    obtain ⟨k, hki, hk⟩ := findFirstIdx_le (fun r => r.it == "App Usage")
      (fun r => isUsageRow r.it)
      (fun r hr => by simp only [isUsageRow, hr, Bool.true_or]) rows i h
    by_cases hik : k = i
    · subst hik
      obtain ⟨_, hqk, hbef⟩ := findFirstIdx_spec _ rows k hk
      have hfas : ((List.range' 0 k).any fun m => isUsageRow (rows.getD m default).it) =
          false := by
        rw [List.any_eq_false]
        intro x hx
        have hxk : x < k := by
          have hmr := (mem_range'_iff k 0 x).mp hx
          omega
        rw [hbef x hxk]
        simp
      refine ⟨_, by
        rw [add_app_usage_details_get? rows custom k hlen, hfas,
          process_row_first_usage rows custom k hqk], ?_, ?_⟩ <;>
      · rw [set_first_app_use_engagement_values, if_pos hpi]
    · have hklt : k < i := Nat.lt_of_le_of_ne hki hik
      obtain ⟨hklen, hqk, _⟩ := findFirstIdx_spec _ rows k hk
      have hfas : ((List.range' 0 i).any fun m => isUsageRow (rows.getD m default).it) =
          true :=
        List.any_eq_true.mpr ⟨k, (mem_range'_iff i 0 k).mpr ⟨Nat.zero_le k, by omega⟩, hqk⟩
      refine ⟨_, by
        rw [add_app_usage_details_get? rows custom i hlen, hfas,
          process_row_first_valid_later rows custom i (by omega) hpi h], ?_, ?_⟩ <;>
      · rw [set_first_app_use_engagement_values, if_pos rfl]
  · intro rows custom i h
    obtain ⟨hlen, hpi, hbef⟩ := findFirstIdx_spec _ rows i h
    have hfas : ((List.range' 0 i).any fun m => isUsageRow (rows.getD m default).it) =
        false := by
      rw [List.any_eq_false]
      intro x hx
      have hxk : x < i := by
        have hmr := (mem_range'_iff i 0 x).mp hx
        omega
      rw [hbef x hxk]
      simp
    refine ⟨_, by
      rw [add_app_usage_details_get? rows custom i hlen, hfas,
        process_row_first_usage rows custom i hpi], ?_, ?_⟩
    · intro hitF
      have hne : ¬(((rows.getD i default).it == "App Usage") = true) := by
        rw [hitF]
        decide
      rw [set_first_app_use_engagement_values, if_neg hne]
      exact ⟨rfl, rfl⟩
    · intro hitV
      have heq : ((rows.getD i default).it == "App Usage") = true := by
        rw [hitV]
        decide
      rw [set_first_app_use_engagement_values, if_pos heq]
      constructor
      · show (defaultFlags (rows.getD i default)).any30 = some 0
        rw [defaultFlags]
        show (if isUsageRow (rows.getD i default).it then some 0 else none) = some 0
        rw [if_pos (by unfold isUsageRow; rw [hitV]; rfl)]
      · show (defaultFlags (rows.getD i default)).anyCustom = some 0
        rw [defaultFlags]
        show (if isUsageRow (rows.getD i default).it then some 0 else none) = some 0
        rw [if_pos (by unfold isUsageRow; rw [hitV]; rfl)]

/-- C7 amended witness: a filtered-first table.  The filtered first row gets
the any-scope flags, and the later first valid row gets the valid-scope
flags. -/
theorem first_usage_engagement_flags_witness :
    (∃ f, (add_app_usage_details
        [⟨"a", "Filtered App Usage", 0, some 0, some 10⟩,
         ⟨"a", "App Usage", 20, some 20, some 30⟩] 300).get? 1 = some f ∧
      f.valid30 = some 1 ∧ f.validCustom = some 1) ∧
    (∃ f, (add_app_usage_details
        [⟨"a", "Filtered App Usage", 0, some 0, some 10⟩,
         ⟨"a", "App Usage", 20, some 20, some 30⟩] 300).get? 0 = some f ∧
      ((([⟨"a", "Filtered App Usage", 0, some 0, some 10⟩,
          ⟨"a", "App Usage", 20, some 20, some 30⟩] : List Event).getD 0 default).it =
          "Filtered App Usage" →
        f.any30 = some 1 ∧ f.anyCustom = some 1) ∧
      ((([⟨"a", "Filtered App Usage", 0, some 0, some 10⟩,
          ⟨"a", "App Usage", 20, some 20, some 30⟩] : List Event).getD 0 default).it =
          "App Usage" →
        f.any30 = some 0 ∧ f.anyCustom = some 0)) :=
  ⟨first_usage_engagement_flags.1
      [⟨"a", "Filtered App Usage", 0, some 0, some 10⟩,
       ⟨"a", "App Usage", 20, some 20, some 30⟩] 300 1 rfl,
   first_usage_engagement_flags.2
      [⟨"a", "Filtered App Usage", 0, some 0, some 10⟩,
       ⟨"a", "App Usage", 20, some 20, some 30⟩] 300 0 rfl⟩

end Chronicle
